import Mathlib

/-!
Verification development for the smart-cert backend core: the batch dispatch
state machine and the deterministic text-layout algorithm.  Python strings are
modelled as lists of characters, the Mongo collection as a list of records,
and the effectful collaborators (PIL rendering, SMTP delivery, the wall clock)
as explicit oracle parameters.
-/

namespace SmartCert

/-- Characters of a Python string. -/
abbrev Str := List Char

/-- Decimal digits of a natural number, fuel-driven so that it reduces in the
kernel; models Python's decimal rendering of an `int` inside an f-string. -/
def natDigitsAux : Nat → Nat → List Char
  | 0, _ => []
  | fuel + 1, n =>
    if n = 0 then [] else natDigitsAux fuel (n / 10) ++ [Char.ofNat (48 + n % 10)]

/-- Decimal rendering of a natural number as characters. -/
def natToChars (n : Nat) : Str :=
  if n = 0 then ['0'] else natDigitsAux (n + 1) n

/-- The three values of `CertificateStatus` in `models/certificate_model.py`. -/
inductive CertificateStatus
  | pending
  | sent
  | failed
deriving DecidableEq, Repr

/-- One document of the `certificates` collection, as inserted by `send_batch`
in `api/certificate.py`.  `created_at` is an abstract timestamp. -/
structure Record where
  certificate_id : Str
  batch_id : Str
  name : Str
  email : Str
  status : CertificateStatus
  file_path : Option Str
  error_message : Option Str
  created_at : Nat
deriving DecidableEq, Repr

/-- The two synchronous rejections of the endpoints modelled here:
`HTTPException(400, "CSV contains no valid rows.")` in `send_batch` and
`HTTPException(404, "No failed records found for this batch.")` in
`retry_failed` (both in `api/certificate.py`). -/
inductive ApiError
  | noValidRows
  | noFailedRecords
deriving DecidableEq, Repr

/- ── Layout engine: services/font_service.py ──────────────────────────── -/

/-- The auto-sizing loop of `get_auto_sized_font` in `services/font_service.py`.
`measure s` is the measured pixel width of the name at font size `s`
(`bbox[2] - bbox[0]` of `font.getbbox(name)`), `maxW` the configured text-box
width in pixels, `minS` is `MIN_FONT_SIZE`, and the loop starts at
`DEFAULT_FONT_SIZE`.  `while font_size >= MIN_FONT_SIZE:` measures, returns the
current size as soon as it fits, otherwise decrements by 2; after the loop,
`MIN_FONT_SIZE` is returned regardless of fit.  Sizes are `Int` because the
Python counter may step below `minS` before the loop exits. -/
def get_auto_sized_font (measure : Int → Nat) (maxW : Nat) (minS : Int) :
    Int → Int :=
  fun fontSize =>
    if h : minS ≤ fontSize then
      if measure fontSize ≤ maxW then fontSize
      else get_auto_sized_font measure maxW minS (fontSize - 2)
    else minS
termination_by fontSize => (fontSize + 2 - minS).toNat
decreasing_by
  simp_wf
  omega

/- ── Artifact renderer geometry: services/pdf_generator.py ────────────── -/

/-- Step 4 of `generate_certificate_pdf` in `services/pdf_generator.py`:
`text_x = origin_x_px + (box_width_px - text_width) // 2` and
`text_y = origin_y_px - (text_height // 2)`.  Python's `//` on ints is floor
division, i.e. `Int.fdiv`. -/
def name_anchor (origin_x origin_y box_width text_width text_height : Int) :
    Int × Int :=
  (origin_x + Int.fdiv (box_width - text_width) 2,
   origin_y - Int.fdiv text_height 2)

/-- `ORG_PREFIX = "TEDxSNPSU"` in `services/pdf_generator.py`. -/
def orgTag : Str := ("TEDxSNPSU").toList

/-- `CERT_NUMBER_RANDOM_CHARS = 5` in `services/pdf_generator.py`. -/
def certNumberChars : Nat := 5

/-- `certificate_id.replace("-", "").upper()[:CERT_NUMBER_RANDOM_CHARS]` from
`_generate_cert_number`: removing every dash is replacement of the single-char
pattern by the empty string, then ASCII upper-casing, then the first 5 chars. -/
def shortId (certificate_id : Str) : Str :=
  ((certificate_id.filter fun c => decide (c ≠ '-')).map Char.toUpper).take
    certNumberChars

/-- `_generate_cert_number` in `services/pdf_generator.py`:
`f"{ORG_PREFIX}-{year}-{short_id}"`.  The Python source reads the wall clock
(`datetime.utcnow().year`); that effect is the explicit `year` argument. -/
def generate_cert_number (year : Nat) (certificate_id : Str) : Str :=
  orgTag ++ ['-'] ++ natToChars year ++ ['-'] ++ shortId certificate_id

/- ── CSV row validation: services/csv_service.py ──────────────────────── -/

/-- The whitespace set stripped by Python's `str.strip()`. -/
def isPySpace (c : Char) : Bool :=
  c = ' ' || c = '\t' || c = '\n' || c = '\r' || c = '\x0b' || c = '\x0c'

/-- Python `str.strip()`: drop leading and trailing whitespace. -/
def pyStrip (s : Str) : Str :=
  ((s.dropWhile isPySpace).reverse.dropWhile isPySpace).reverse

/-- The row pipeline of `parse_csv` in `services/csv_service.py`: `dropna()`
drops rows with a missing name or email cell, the name is stripped, the email
stripped and lower-cased, and only rows with a non-empty name and an email
containing '@' survive.  The pandas CSV reading itself is an out-of-scope I/O
adapter; the input here is the sequence of (name cell, email cell) pairs with
`none` for a missing cell. -/
def parse_csv (rows : List (Option Str × Option Str)) : List (Str × Str) :=
  (rows.filterMap fun p =>
      match p with
      | (some n, some e) => some (pyStrip n, (pyStrip e).map Char.toLower)
      | _ => none).filter
    fun p => 0 < p.1.length && p.2.contains '@'

/- ── Batch submission: send_batch in api/certificate.py ──────────────── -/

/-- One document inserted by `send_batch`: status PENDING, no file path, no
error message, the shared fresh batch id. -/
def mkDoc (bid cid : Str) (now : Nat) (row : Str × Str) : Record :=
  { certificate_id := cid
    batch_id := bid
    name := row.1
    email := row.2
    status := CertificateStatus.pending
    file_path := none
    error_message := none
    created_at := now }

/-- `send_batch` in `api/certificate.py`, after CSV parsing: reject with HTTP
400 when no valid rows remain, otherwise insert one PENDING document per row
under a fresh batch id and answer with the batch id and the row count.
`freshBid` is the generated batch id and `freshCid i` the certificate id
generated for row `i` (both `generate_certificate_id()` calls). -/
def send_batch (freshBid : Str) (freshCid : Nat → Str) (now : Nat)
    (rows : List (Str × Str)) (store : List Record) :
    List Record × Except ApiError (Str × Nat) :=
  if rows.length = 0 then (store, Except.error ApiError.noValidRows)
  else
    let docs := ((List.range rows.length).zip rows).map fun p =>
      mkDoc freshBid (freshCid p.1) now p.2
    (store ++ docs, Except.ok (freshBid, docs.length))

/-- The `send_batch` endpoint end to end: parse the CSV rows, then seed the
store. -/
def send_batch_endpoint (freshBid : Str) (freshCid : Nat → Str) (now : Nat)
    (rawRows : List (Option Str × Option Str)) (store : List Record) :
    List Record × Except ApiError (Str × Nat) :=
  send_batch freshBid freshCid now (parse_csv rawRows) store

/- ── Dispatcher: _process_batch in api/certificate.py ─────────────────── -/

/-- `settings.GENERATED_DIR / f"{cert_id}.pdf"`, the transient artifact path
of one record. -/
def pdfPath (cid : Str) : Str :=
  ("generated/").toList ++ cid ++ (".pdf").toList

/-- Observable effects of one per-record step of `_process_batch`:
pdf generation, email delivery, the two `update_one` status writes, the
`asyncio.sleep(settings.EMAIL_DELAY_SECONDS)` pacing delay, and the
`safe_delete(pdf_path)` cleanup. -/
inductive Event
  | generatedPdf (cid : Str)
  | emailed (cid : Str)
  | markedSent (cid : Str) (path : Str)
  | markedFailed (cid : Str) (msg : Str)
  | paced
  | deletedFile (path : Str)
deriving DecidableEq, Repr

/-- Outcome of the try-block body for one record: `generate_certificate_pdf`
then `send_certificate_email`, each of which may raise with a message; on
success the record's file path is the generated pdf path.  `render` and
`deliver` are the abstract collaborators (image/PDF library, SMTP client). -/
def recordOutcome (render deliver : Str → Except Str Unit) (cid : Str) :
    Except Str Str :=
  match render cid with
  | Except.error e => Except.error e
  | Except.ok _ =>
    match deliver cid with
    | Except.error e => Except.error e
    | Except.ok _ => Except.ok (pdfPath cid)

/-- Event trace of one per-record step, including the `finally:` block: pace,
then delete the transient artifact, whatever the outcome was. -/
def stepEvents (render deliver : Str → Except Str Unit) (cid : Str) :
    List Event :=
  (match render cid with
   | Except.error e => [Event.markedFailed cid e]
   | Except.ok _ =>
     match deliver cid with
     | Except.error e => [Event.generatedPdf cid, Event.markedFailed cid e]
     | Except.ok _ =>
       [Event.generatedPdf cid, Event.emailed cid,
        Event.markedSent cid (pdfPath cid)]) ++
  [Event.paced, Event.deletedFile (pdfPath cid)]

/-- The `update_one` write for one record, applied to its document: on success
`{"$set": {"status": SENT, "file_path": str(pdf_path)}}`, on failure
`{"$set": {"status": FAILED, "error_message": str(e)}}`. -/
def procRecord (render deliver : Str → Except Str Unit) (r : Record) : Record :=
  match recordOutcome render deliver r.certificate_id with
  | Except.ok fp => { r with status := CertificateStatus.sent, file_path := some fp }
  | Except.error e =>
    { r with status := CertificateStatus.failed, error_message := some e }

/-- `update_one({"certificate_id": cid}, ...)` over the whole store: every
document with that certificate id receives the outcome write. -/
def applyOutcome (render deliver : Str → Except Str Unit) (cid : Str)
    (st : List Record) : List Record :=
  st.map fun x =>
    if x.certificate_id = cid then procRecord render deliver x else x

/-- The cursor snapshot of `_process_batch`: certificate ids of the records of
the batch that are PENDING when the run starts, in store order. -/
def pendingIds (bid : Str) (store : List Record) : List Str :=
  (store.filter fun r =>
      decide (r.batch_id = bid ∧ r.status = CertificateStatus.pending)).map
    fun r => r.certificate_id

/-- `_process_batch` in `api/certificate.py`: iterate the PENDING snapshot of
the batch; for each record render, deliver, persist the outcome, pace, delete
the artifact.  Returns the final store and the event trace of the run. -/
def process_batch (render deliver : Str → Except Str Unit) (bid : Str)
    (store : List Record) : List Record × List Event :=
  ((pendingIds bid store).foldl
      (fun st cid => applyOutcome render deliver cid st) store,
   (pendingIds bid store).flatMap (stepEvents render deliver))

/- ── Progress: get_progress in api/certificate.py ─────────────────────── -/

/-- The JSON body returned by the progress endpoint (minus the echoed
batch id). -/
structure Progress where
  total : Int
  sent : Int
  failed : Int
  pending : Int
  done : Bool
deriving DecidableEq, Repr

/-- `get_progress` in `api/certificate.py`: four `count_documents` queries,
`pending = total - sent - failed` by integer subtraction, and
`done = (pending == 0 and total > 0)`. -/
def get_progress (bid : Str) (store : List Record) : Progress :=
  let total : Int := (store.filter fun r => decide (r.batch_id = bid)).length
  let sent : Int := (store.filter fun r =>
    decide (r.batch_id = bid ∧ r.status = CertificateStatus.sent)).length
  let failed : Int := (store.filter fun r =>
    decide (r.batch_id = bid ∧ r.status = CertificateStatus.failed)).length
  let pending : Int := total - sent - failed
  { total := total
    sent := sent
    failed := failed
    pending := pending
    done := decide (pending = 0 ∧ 0 < total) }

/- ── Retry: retry_failed in api/certificate.py ───────────────────────── -/

/-- The `update_many` of `retry_failed`: every FAILED record of the batch is
set to PENDING with `error_message` cleared; nothing else is touched. -/
def retryUpdate (bid : Str) (store : List Record) : List Record :=
  store.map fun r =>
    if r.batch_id = bid ∧ r.status = CertificateStatus.failed then
      { r with status := CertificateStatus.pending, error_message := none }
    else r

/-- `modified_count` of that `update_many`: the number of documents matching
the filter (every match is genuinely modified, since its status changes). -/
def retryModified (bid : Str) (store : List Record) : Nat :=
  (store.filter fun r =>
    decide (r.batch_id = bid ∧ r.status = CertificateStatus.failed)).length

/-- `retry_failed` in `api/certificate.py`: run the bulk update, then answer
HTTP 404 when it modified nothing — in that case no new `_process_batch` task
is created — otherwise report the count (a new dispatcher run is launched only
in the `Except.ok` case). -/
def retry_failed (bid : Str) (store : List Record) :
    List Record × Except ApiError Nat :=
  let store2 := retryUpdate bid store
  let n := retryModified bid store
  if n = 0 then (store2, Except.error ApiError.noFailedRecords)
  else (store2, Except.ok n)

/-- The `$set` document of `retry_failed`'s `update_many`, applied to one
record: status PENDING, `error_message` cleared. -/
def retriedRecord (r : Record) : Record :=
  { r with status := CertificateStatus.pending, error_message := none }

/-- The `$set` document of the FAILED branch of `_process_batch`, applied to
one record: status FAILED, `error_message` the raised error's message. -/
def failedRecord (r : Record) (e : Str) : Record :=
  { r with status := CertificateStatus.failed, error_message := some e }

/-- The `$set` document of the SENT branch of `_process_batch`, applied to
one record: status SENT, `file_path` the artifact's path. -/
def sentRecord (r : Record) (fp : Str) : Record :=
  { r with status := CertificateStatus.sent, file_path := some fp }

/-- The per-record status transitions the spec allows: stay, PENDING to SENT,
PENDING to FAILED, FAILED to PENDING. -/
def statusStep (a b : CertificateStatus) : Prop :=
  a = b ∨
  (a = CertificateStatus.pending ∧
    (b = CertificateStatus.sent ∨ b = CertificateStatus.failed)) ∨
  (a = CertificateStatus.failed ∧ b = CertificateStatus.pending)

/- ── Concrete sample data for witnesses ───────────────────────────────── -/

/-- A SENT record of batch b1. -/
def rec1 : Record :=
  { certificate_id := ("c1").toList
    batch_id := ("b1").toList
    name := ("Ann").toList
    email := ("ann@x.com").toList
    status := CertificateStatus.sent
    file_path := some (pdfPath (("c1").toList))
    error_message := none
    created_at := 0 }

/-- A FAILED record of batch b1. -/
def rec2 : Record :=
  { certificate_id := ("c2").toList
    batch_id := ("b1").toList
    name := ("Bob").toList
    email := ("bob@x.com").toList
    status := CertificateStatus.failed
    file_path := none
    error_message := some (("boom").toList)
    created_at := 0 }

/-- A PENDING record of batch b1. -/
def rec3 : Record :=
  { certificate_id := ("c3").toList
    batch_id := ("b1").toList
    name := ("Cid").toList
    email := ("cid@x.com").toList
    status := CertificateStatus.pending
    file_path := none
    error_message := none
    created_at := 0 }

/-- A PENDING record of another batch. -/
def rec4 : Record :=
  { certificate_id := ("c4").toList
    batch_id := ("b2").toList
    name := ("Dee").toList
    email := ("dee@x.com").toList
    status := CertificateStatus.pending
    file_path := none
    error_message := none
    created_at := 0 }

/-- A small concrete store exercising all three statuses and two batches. -/
def sampleStore : List Record := [rec1, rec2, rec3, rec4]

/- ──────────────────────────── Theorems ─────────────────────────────── -/

/-- Behaviour of the auto-sizing loop from an arbitrary starting size: bounds,
the below-minimum fallback, the immediate-fit case, the fit-or-minimum
dichotomy, and maximality among the visited sizes. -/
lemma auto_size_core (measure : Int → Nat) (maxW : Nat) (minS fontSize : Int) :
    (minS ≤ fontSize → minS ≤ get_auto_sized_font measure maxW minS fontSize ∧
      get_auto_sized_font measure maxW minS fontSize ≤ fontSize) ∧
    (¬minS ≤ fontSize → get_auto_sized_font measure maxW minS fontSize = minS) ∧
    (minS ≤ fontSize → measure fontSize ≤ maxW →
      get_auto_sized_font measure maxW minS fontSize = fontSize) ∧
    ((measure (get_auto_sized_font measure maxW minS fontSize) ≤ maxW ∧
        minS ≤ get_auto_sized_font measure maxW minS fontSize ∧
        (fontSize - get_auto_sized_font measure maxW minS fontSize) % 2 = 0) ∨
      get_auto_sized_font measure maxW minS fontSize = minS) ∧
    (∀ s, minS ≤ s → get_auto_sized_font measure maxW minS fontSize < s →
      s ≤ fontSize → (fontSize - s) % 2 = 0 → maxW < measure s) := by
  induction fontSize using get_auto_sized_font.induct measure maxW minS with
  | case1 x hge hfit =>
    have hx : get_auto_sized_font measure maxW minS x = x := by
      rw [get_auto_sized_font]; simp [hge, hfit]
    rw [hx]
    refine ⟨fun _ => ⟨hge, le_refl x⟩, fun h => absurd hge h, fun _ _ => rfl,
      Or.inl ⟨hfit, hge, by omega⟩, fun s _ hlt hle _ => absurd hle (by omega)⟩
  | case2 x hge hfit ih =>
    have hx : get_auto_sized_font measure maxW minS x =
        get_auto_sized_font measure maxW minS (x - 2) := by
      rw [get_auto_sized_font]; simp [hge, hfit]
    obtain ⟨ih1, ih2, _, ih4, ih5⟩ := ih
    rw [hx]
    refine ⟨?_, fun h => absurd hge h, fun _ hf => absurd hf hfit, ?_, ?_⟩
    · intro _
      by_cases h2 : minS ≤ x - 2
      · obtain ⟨hlo, hhi⟩ := ih1 h2
        exact ⟨hlo, by omega⟩
      · rw [ih2 h2]
        exact ⟨le_refl minS, hge⟩
    · rcases ih4 with ⟨hf, hg, hp⟩ | hmin
      · exact Or.inl ⟨hf, hg, by omega⟩
      · exact Or.inr hmin
    · intro s hs hlt hle hpar
      by_cases hsx : s = x
      · subst hsx; omega
      · exact ih5 s hs hlt (by omega) (by omega)
  | case3 x hge =>
    have hx : get_auto_sized_font measure maxW minS x = minS := by
      rw [get_auto_sized_font]; simp [hge]
    rw [hx]
    refine ⟨fun h => absurd h hge, fun _ => rfl, fun h => absurd h hge,
      Or.inr rfl, fun s hs _ hle _ => absurd hs (by omega)⟩

/-- C1: starting from `DEFAULT_FONT_SIZE`, the auto-sizer returns a size
between `MIN_FONT_SIZE` and the default; if the measured width at the default
already fits (in particular for the empty name, whose width is 0) it returns
exactly the default; the result either fits and lies on the descending
sequence default, default-2, default-4, ..., or is exactly the minimum; every
size of that sequence above the result that is at least the minimum fails to
fit (so the result is the largest fitting size of the sequence); and if no
size of the sequence at or above the minimum fits, the minimum is returned.
The function is total, so an oversized name never raises. -/
theorem auto_sized_font_correct (measure : Int → Nat) (maxW : Nat)
    (minS dflt : Int) (hmd : minS ≤ dflt) :
    minS ≤ get_auto_sized_font measure maxW minS dflt ∧
    get_auto_sized_font measure maxW minS dflt ≤ dflt ∧
    (measure dflt ≤ maxW → get_auto_sized_font measure maxW minS dflt = dflt) ∧
    ((measure (get_auto_sized_font measure maxW minS dflt) ≤ maxW ∧
        (dflt - get_auto_sized_font measure maxW minS dflt) % 2 = 0) ∨
      get_auto_sized_font measure maxW minS dflt = minS) ∧
    (∀ s, minS ≤ s → get_auto_sized_font measure maxW minS dflt < s →
      s ≤ dflt → (dflt - s) % 2 = 0 → maxW < measure s) ∧
    ((∀ s, minS ≤ s → s ≤ dflt → (dflt - s) % 2 = 0 → maxW < measure s) →
      get_auto_sized_font measure maxW minS dflt = minS) := by
  obtain ⟨h1, _, h3, h4, h5⟩ := auto_size_core measure maxW minS dflt
  obtain ⟨hlo, hhi⟩ := h1 hmd
  refine ⟨hlo, hhi, h3 hmd, ?_, h5, ?_⟩
  · rcases h4 with ⟨a, _, c⟩ | h
    · exact Or.inl ⟨a, c⟩
    · exact Or.inr h
  · intro hall
    rcases h4 with ⟨hfit, hge, hpar⟩ | h
    · exact absurd hfit (by have := hall _ hge hhi hpar; omega)
    · exact h

/-- Witness for C1 at the repository's configured sizes (default 72, min 36)
and a concrete width oracle. -/
theorem auto_sized_font_correct_witness :
    (36 : Int) ≤ 72 ∧
    (let m : Int → Nat := fun s => if 40 ≤ s then 100 else 1
    (36 : Int) ≤ get_auto_sized_font m 50 36 72 ∧
    get_auto_sized_font m 50 36 72 ≤ 72 ∧
    (m 72 ≤ 50 → get_auto_sized_font m 50 36 72 = 72) ∧
    ((m (get_auto_sized_font m 50 36 72) ≤ 50 ∧
        (72 - get_auto_sized_font m 50 36 72) % 2 = 0) ∨
      get_auto_sized_font m 50 36 72 = 36) ∧
    (∀ s, (36 : Int) ≤ s → get_auto_sized_font m 50 36 72 < s → s ≤ 72 →
      (72 - s) % 2 = 0 → 50 < m s) ∧
    ((∀ s, (36 : Int) ≤ s → s ≤ 72 → (72 - s) % 2 = 0 → 50 < m s) →
      get_auto_sized_font m 50 36 72 = 36)) :=
  ⟨by decide,
   auto_sized_font_correct (fun s => if 40 ≤ s then 100 else 1) 50 36 72
     (by decide)⟩

/-- C8: the horizontal anchor is `box.x + (box_width - text_width) // 2`
(Python floor division) and centers the measured text in the box — the right
margin exceeds the left margin by at most the 1-pixel rounding unit — and the
vertical anchor `origin_y - text_height // 2` places the text's vertical
midpoint on the configured baseline, again up to the rounding unit. -/
theorem name_anchor_centers (ox oy w tw th : Int) :
    (name_anchor ox oy w tw th).1 = ox + Int.fdiv (w - tw) 2 ∧
    (name_anchor ox oy w tw th).2 = oy - Int.fdiv th 2 ∧
    (name_anchor ox oy w tw th).1 - ox ≤
      (ox + w) - ((name_anchor ox oy w tw th).1 + tw) ∧
    (ox + w) - ((name_anchor ox oy w tw th).1 + tw) ≤
      ((name_anchor ox oy w tw th).1 - ox) + 1 ∧
    2 * oy ≤ 2 * (name_anchor ox oy w tw th).2 + th ∧
    2 * (name_anchor ox oy w tw th).2 + th ≤ 2 * oy + 1 := by
  have h2 : (0 : Int) ≤ 2 := by norm_num
  simp only [name_anchor, Int.fdiv_eq_ediv _ h2]
  refine ⟨trivial, trivial, ?_, ?_, ?_, ?_⟩ <;> omega

/-- C9 counterexample: the document number is not a function of the
certificate identifier alone — the same identifier stamped in two different
UTC years yields two different strings. -/
theorem cert_number_depends_on_year :
    generate_cert_number 2025 (("abc").toList) ≠
      generate_cert_number 2026 (("abc").toList) := by decide

/-- C9 amended: the document number is a deterministic function of the
current UTC year and of the identifier — and of the identifier only through
its dash-free, upper-cased 5-character truncation; no randomness enters. -/
theorem cert_number_deterministic (year : Nat) (id1 id2 : Str)
    (h : shortId id1 = shortId id2) :
    generate_cert_number year id1 = generate_cert_number year id2 := by
  unfold generate_cert_number
  rw [h]

/-- Witness for the amended C9: two spellings of an identifier with the same
truncation receive the same document number within one year. -/
theorem cert_number_deterministic_witness :
    shortId (("a-b").toList) = shortId (("ab").toList) ∧
    generate_cert_number 2026 (("a-b").toList) =
      generate_cert_number 2026 (("ab").toList) :=
  ⟨by decide, cert_number_deterministic 2026 (("a-b").toList) (("ab").toList)
    (by decide)⟩

/-- Every record of a batch has exactly one of the three statuses, so the
batch total splits into the SENT, FAILED and PENDING counts. -/
lemma count_status_partition (bid : Str) (store : List Record) :
    (store.filter fun r => decide (r.batch_id = bid)).length =
      (store.filter fun r =>
        decide (r.batch_id = bid ∧ r.status = CertificateStatus.sent)).length +
      (store.filter fun r =>
        decide (r.batch_id = bid ∧ r.status = CertificateStatus.failed)).length +
      (store.filter fun r =>
        decide (r.batch_id = bid ∧ r.status = CertificateStatus.pending)).length := by
  induction store with
  | nil => rfl
  | cons r t ih =>
    by_cases hb : r.batch_id = bid
    · cases hs : r.status <;> simp [List.filter_cons, hb, hs, ih] <;> omega
    · simp [List.filter_cons, hb]
      simpa using ih

/-- C4: `get_progress` returns the record count of the batch as `total`, the
SENT and FAILED counts, `pending = total - sent - failed` which equals the
count of PENDING records, `done = (pending == 0 and total > 0)`, the invariant
`total = sent + failed + pending` holds, and a batch with zero records yields
`total = 0` and `done = false`. -/
theorem get_progress_correct (bid : Str) (store : List Record) :
    (get_progress bid store).total =
      ((store.filter fun r => decide (r.batch_id = bid)).length : Int) ∧
    (get_progress bid store).sent =
      ((store.filter fun r =>
        decide (r.batch_id = bid ∧ r.status = CertificateStatus.sent)).length : Int) ∧
    (get_progress bid store).failed =
      ((store.filter fun r =>
        decide (r.batch_id = bid ∧ r.status = CertificateStatus.failed)).length : Int) ∧
    (get_progress bid store).pending =
      (get_progress bid store).total - (get_progress bid store).sent -
        (get_progress bid store).failed ∧
    (get_progress bid store).pending =
      ((store.filter fun r =>
        decide (r.batch_id = bid ∧ r.status = CertificateStatus.pending)).length : Int) ∧
    (get_progress bid store).done =
      decide ((get_progress bid store).pending = 0 ∧
        0 < (get_progress bid store).total) ∧
    (get_progress bid store).total =
      (get_progress bid store).sent + (get_progress bid store).failed +
        (get_progress bid store).pending ∧
    ((store.filter fun r => decide (r.batch_id = bid)) = [] →
      (get_progress bid store).total = 0 ∧
      (get_progress bid store).done = false) := by
  have hpart := count_status_partition bid store
  refine ⟨rfl, rfl, rfl, rfl, ?_, rfl, ?_, ?_⟩
  · simp only [get_progress]
    omega
  · simp only [get_progress]
    omega
  · intro hempty
    simp only [get_progress, hempty]
    rw [hempty] at hpart
    constructor
    · rfl
    · simp only [List.length_nil]
      rw [decide_eq_false]
      simp only [Nat.cast_zero]
      omega

/-- Witness for C4 on the sample store. -/
theorem get_progress_correct_witness :
    (get_progress (("b1").toList) sampleStore).total =
      ((sampleStore.filter fun r =>
        decide (r.batch_id = ("b1").toList)).length : Int) ∧
    (get_progress (("b1").toList) sampleStore).sent =
      ((sampleStore.filter fun r => decide (r.batch_id = ("b1").toList ∧
        r.status = CertificateStatus.sent)).length : Int) ∧
    (get_progress (("b1").toList) sampleStore).failed =
      ((sampleStore.filter fun r => decide (r.batch_id = ("b1").toList ∧
        r.status = CertificateStatus.failed)).length : Int) ∧
    (get_progress (("b1").toList) sampleStore).pending =
      (get_progress (("b1").toList) sampleStore).total -
        (get_progress (("b1").toList) sampleStore).sent -
        (get_progress (("b1").toList) sampleStore).failed ∧
    (get_progress (("b1").toList) sampleStore).pending =
      ((sampleStore.filter fun r => decide (r.batch_id = ("b1").toList ∧
        r.status = CertificateStatus.pending)).length : Int) ∧
    (get_progress (("b1").toList) sampleStore).done =
      decide ((get_progress (("b1").toList) sampleStore).pending = 0 ∧
        0 < (get_progress (("b1").toList) sampleStore).total) ∧
    (get_progress (("b1").toList) sampleStore).total =
      (get_progress (("b1").toList) sampleStore).sent +
        (get_progress (("b1").toList) sampleStore).failed +
        (get_progress (("b1").toList) sampleStore).pending ∧
    ((sampleStore.filter fun r => decide (r.batch_id = ("b1").toList)) = [] →
      (get_progress (("b1").toList) sampleStore).total = 0 ∧
      (get_progress (("b1").toList) sampleStore).done = false) :=
  get_progress_correct (("b1").toList) sampleStore

/-- Zipping a list with its image under a map turns the changed-entry count
into a pointwise count. -/
lemma zip_map_countP (f : Record → Record) (l : List Record) :
    ((l.zip (l.map f)).countP fun p => decide (p.1 ≠ p.2)) =
      l.countP fun r => decide (f r ≠ r) := by
  induction l with
  | nil => rfl
  | cons a t ih =>
    rw [List.map_cons, List.zip_cons_cons, List.countP_cons, List.countP_cons,
      ih]
    have hd : (decide ((a, f a).1 ≠ (a, f a).2)) = decide (f a ≠ a) := by
      apply decide_eq_decide.mpr
      exact ⟨fun hne heq => hne heq.symm, fun hne heq => hne heq.symm⟩
    rw [hd]

/-- The retry update genuinely modifies a record exactly when the record is a
FAILED record of the batch (the status write always changes the status). -/
lemma retry_changes_iff (bid : Str) (r : Record) :
    ((if r.batch_id = bid ∧ r.status = CertificateStatus.failed then
        { r with status := CertificateStatus.pending, error_message := none }
      else r) ≠ r) ↔
      (r.batch_id = bid ∧ r.status = CertificateStatus.failed) := by
  by_cases h : r.batch_id = bid ∧ r.status = CertificateStatus.failed
  · rw [if_pos h]
    refine ⟨fun _ => h, fun _ heq => ?_⟩
    have hst := congrArg Record.status heq
    rw [h.2] at hst
    exact absurd hst (by simp)
  · rw [if_neg h]
    simp [h]

/-- C2: `retry_failed` keeps the store's length, rewrites exactly the FAILED
records of the batch to PENDING with `error_message` cleared, leaves every
other record (SENT, already PENDING, or other batches) untouched, and the
number of records actually changed is the reported `modified_count`; when the
batch has zero FAILED records it answers the 404 "nothing to retry" error
with the store unchanged and no new dispatcher run (the run is only launched
in the `Except.ok` case), and otherwise reports exactly that count. -/
theorem retry_failed_correct (bid : Str) (store : List Record) :
    (retry_failed bid store).1.length = store.length ∧
    (∀ i (h : i < store.length),
      ((store.get ⟨i, h⟩).batch_id = bid →
        (store.get ⟨i, h⟩).status = CertificateStatus.failed →
        (retry_failed bid store).1[i]? =
          some (retriedRecord (store.get ⟨i, h⟩))) ∧
      (¬((store.get ⟨i, h⟩).batch_id = bid ∧
          (store.get ⟨i, h⟩).status = CertificateStatus.failed) →
        (retry_failed bid store).1[i]? = some (store.get ⟨i, h⟩))) ∧
    ((store.zip (retry_failed bid store).1).countP fun p =>
      decide (p.1 ≠ p.2)) = retryModified bid store ∧
    (retryModified bid store = 0 →
      (retry_failed bid store).1 = store ∧
      (retry_failed bid store).2 = Except.error ApiError.noFailedRecords) ∧
    (retryModified bid store ≠ 0 →
      (retry_failed bid store).2 = Except.ok (retryModified bid store)) := by
  have hfst : (retry_failed bid store).1 = retryUpdate bid store := by
    unfold retry_failed
    by_cases h0 : retryModified bid store = 0 <;> simp [h0]
  refine ⟨?_, ?_, ?_, ?_, ?_⟩
  · rw [hfst]; exact List.length_map store _
  · intro i h
    have hsome : store[i]? = some (store.get ⟨i, h⟩) := by
      rw [List.getElem?_eq_getElem h]
      rfl
    constructor
    · intro hb hs
      rw [hfst]
      unfold retryUpdate
      rw [List.getElem?_map, hsome, Option.map_some']
      rw [if_pos ⟨hb, hs⟩]
      rfl
    · intro hn
      rw [hfst]
      unfold retryUpdate
      rw [List.getElem?_map, hsome, Option.map_some']
      rw [if_neg hn]
  · rw [hfst]
    unfold retryUpdate retryModified
    rw [zip_map_countP, ← List.countP_eq_length_filter]
    apply List.countP_congr
    intro r _
    simp only [decide_eq_true_eq]
    exact retry_changes_iff bid r
  · intro h0
    constructor
    · rw [hfst]
      unfold retryUpdate
      have hnone : ∀ r ∈ store,
          ¬(r.batch_id = bid ∧ r.status = CertificateStatus.failed) := by
        intro r hr hcontra
        have : r ∈ store.filter fun r =>
            decide (r.batch_id = bid ∧ r.status = CertificateStatus.failed) :=
          List.mem_filter.mpr ⟨hr, by simp [hcontra]⟩
        unfold retryModified at h0
        rw [List.length_eq_zero] at h0
        rw [h0] at this
        exact absurd this (List.not_mem_nil r)
      have : store.map (fun r =>
          if r.batch_id = bid ∧ r.status = CertificateStatus.failed then
            { r with status := CertificateStatus.pending, error_message := none }
          else r) = store.map id := by
        apply List.map_congr_left
        intro r hr
        rw [if_neg (hnone r hr)]
        rfl
      rw [this, List.map_id]
    · unfold retry_failed
      simp [h0]
  · intro h0
    unfold retry_failed
    simp [h0]

/-- Witness for C2 on the sample store: batch b1 has one FAILED record. -/
theorem retry_failed_correct_witness :
    (retry_failed (("b1").toList) sampleStore).1.length = sampleStore.length ∧
    (∀ i (h : i < sampleStore.length),
      ((sampleStore.get ⟨i, h⟩).batch_id = ("b1").toList →
        (sampleStore.get ⟨i, h⟩).status = CertificateStatus.failed →
        (retry_failed (("b1").toList) sampleStore).1[i]? =
          some (retriedRecord (sampleStore.get ⟨i, h⟩))) ∧
      (¬((sampleStore.get ⟨i, h⟩).batch_id = ("b1").toList ∧
          (sampleStore.get ⟨i, h⟩).status = CertificateStatus.failed) →
        (retry_failed (("b1").toList) sampleStore).1[i]? =
          some (sampleStore.get ⟨i, h⟩))) ∧
    ((sampleStore.zip (retry_failed (("b1").toList) sampleStore).1).countP fun p =>
      decide (p.1 ≠ p.2)) = retryModified (("b1").toList) sampleStore ∧
    (retryModified (("b1").toList) sampleStore = 0 →
      (retry_failed (("b1").toList) sampleStore).1 = sampleStore ∧
      (retry_failed (("b1").toList) sampleStore).2 =
        Except.error ApiError.noFailedRecords) ∧
    (retryModified (("b1").toList) sampleStore ≠ 0 →
      (retry_failed (("b1").toList) sampleStore).2 =
        Except.ok (retryModified (("b1").toList) sampleStore)) :=
  retry_failed_correct (("b1").toList) sampleStore

/-- On a non-empty row list, `send_batch` takes the insert branch: the store
grows by the freshly built documents and the response reports the batch id
and the row count. -/
lemma send_batch_ok_parts (freshBid : Str) (freshCid : Nat → Str) (now : Nat)
    (rows : List (Str × Str)) (store : List Record) (hne : rows ≠ []) :
    (send_batch freshBid freshCid now rows store).2 =
      Except.ok (freshBid, rows.length) ∧
    (send_batch freshBid freshCid now rows store).1 =
      store ++ ((List.range rows.length).zip rows).map fun p =>
        mkDoc freshBid (freshCid p.1) now p.2 := by
  have hlen : rows.length ≠ 0 := fun h => hne (List.length_eq_zero.mp h)
  have hdocs : (((List.range rows.length).zip rows).map fun p =>
      mkDoc freshBid (freshCid p.1) now p.2).length = rows.length := by
    rw [List.length_map, List.length_zip, List.length_range, min_self]
  unfold send_batch
  rw [if_neg hlen]
  exact ⟨by simp [hdocs], rfl⟩

/-- C6: for every non-empty parsed recipient list and fresh batch id,
`send_batch` answers ok with the fresh batch id and the row count, keeps the
existing records untouched, appends exactly one record per input row in input
order (names and emails agree with the rows), every appended record is
PENDING with `file_path` and `error_message` unset and carries the shared
fresh batch id, and the number of stored records under that batch id equals
the input length. -/
theorem send_batch_seeds_batch (freshBid : Str) (freshCid : Nat → Str)
    (now : Nat) (rows : List (Str × Str)) (store : List Record)
    (hne : rows ≠ []) (hfresh : ∀ r ∈ store, r.batch_id ≠ freshBid) :
    (send_batch freshBid freshCid now rows store).2 =
      Except.ok (freshBid, rows.length) ∧
    (send_batch freshBid freshCid now rows store).1.length =
      store.length + rows.length ∧
    (send_batch freshBid freshCid now rows store).1.take store.length =
      store ∧
    (∀ d ∈ (send_batch freshBid freshCid now rows store).1.drop store.length,
      d.batch_id = freshBid ∧ d.status = CertificateStatus.pending ∧
      d.file_path = none ∧ d.error_message = none) ∧
    ((send_batch freshBid freshCid now rows store).1.drop store.length).map
      (fun d => (d.name, d.email)) = rows ∧
    ((send_batch freshBid freshCid now rows store).1.filter fun r =>
      decide (r.batch_id = freshBid)).length = rows.length := by
  obtain ⟨hresp, hstore⟩ :=
    send_batch_ok_parts freshBid freshCid now rows store hne
  have hzlen : ((List.range rows.length).zip rows).length = rows.length := by
    rw [List.length_zip, List.length_range, min_self]
  have hdocs : (((List.range rows.length).zip rows).map fun p =>
      mkDoc freshBid (freshCid p.1) now p.2).length = rows.length := by
    rw [List.length_map, hzlen]
  refine ⟨hresp, ?_, ?_, ?_, ?_, ?_⟩
  · rw [hstore, List.length_append, hdocs]
  · rw [hstore, List.take_left]
  · rw [hstore, List.drop_left]
    intro d hd
    obtain ⟨p, _, hp⟩ := List.mem_map.mp hd
    rw [← hp]
    exact ⟨rfl, rfl, rfl, rfl⟩
  · rw [hstore, List.drop_left, List.map_map]
    have : ((fun d => (d.name, d.email)) ∘ fun p : Nat × (Str × Str) =>
        mkDoc freshBid (freshCid p.1) now p.2) = fun p => p.2 := by
      funext p
      simp [mkDoc]
    rw [this]
    have hsnd : (fun p : Nat × (Str × Str) => p.2) = Prod.snd := rfl
    rw [hsnd, List.map_snd_zip _ _ (by rw [List.length_range])]
  · rw [hstore, List.filter_append]
    have h1 : (store.filter fun r => decide (r.batch_id = freshBid)) = [] := by
      rw [List.filter_eq_nil_iff]
      intro r hr
      simp [hfresh r hr]
    have h2 : ((((List.range rows.length).zip rows).map fun p =>
        mkDoc freshBid (freshCid p.1) now p.2).filter fun r =>
          decide (r.batch_id = freshBid)) =
        ((List.range rows.length).zip rows).map fun p =>
          mkDoc freshBid (freshCid p.1) now p.2 := by
      rw [List.filter_eq_self]
      intro d hd
      obtain ⟨p, _, hp⟩ := List.mem_map.mp hd
      rw [← hp]
      simp [mkDoc]
    rw [h1, h2, List.nil_append, hdocs]

/-- Witness for C6: one valid row appended to the sample store under a fresh
batch id. -/
theorem send_batch_seeds_batch_witness :
    ((("Ann").toList, ("ann@x.com").toList) ::
        ([] : List (Str × Str)) ≠ [] ∧
      ∀ r ∈ sampleStore, r.batch_id ≠ ("b9").toList) ∧
    ((send_batch (("b9").toList) (fun i => natToChars i) 0
        [(("Ann").toList, ("ann@x.com").toList)] sampleStore).2 =
      Except.ok ((("b9").toList),
        ([(("Ann").toList, ("ann@x.com").toList)] :
          List (Str × Str)).length) ∧
    (send_batch (("b9").toList) (fun i => natToChars i) 0
        [(("Ann").toList, ("ann@x.com").toList)] sampleStore).1.length =
      sampleStore.length +
        ([(("Ann").toList, ("ann@x.com").toList)] :
          List (Str × Str)).length ∧
    (send_batch (("b9").toList) (fun i => natToChars i) 0
        [(("Ann").toList, ("ann@x.com").toList)]
        sampleStore).1.take sampleStore.length = sampleStore ∧
    (∀ d ∈ (send_batch (("b9").toList) (fun i => natToChars i) 0
        [(("Ann").toList, ("ann@x.com").toList)]
        sampleStore).1.drop sampleStore.length,
      d.batch_id = ("b9").toList ∧ d.status = CertificateStatus.pending ∧
      d.file_path = none ∧ d.error_message = none) ∧
    ((send_batch (("b9").toList) (fun i => natToChars i) 0
        [(("Ann").toList, ("ann@x.com").toList)]
        sampleStore).1.drop sampleStore.length).map
      (fun d => (d.name, d.email)) =
        [(("Ann").toList, ("ann@x.com").toList)] ∧
    ((send_batch (("b9").toList) (fun i => natToChars i) 0
        [(("Ann").toList, ("ann@x.com").toList)] sampleStore).1.filter
          fun r => decide (r.batch_id = ("b9").toList)).length =
      ([(("Ann").toList, ("ann@x.com").toList)] :
        List (Str × Str)).length) :=
  ⟨⟨by decide, by decide⟩,
    send_batch_seeds_batch (("b9").toList) (fun i => natToChars i) 0
      [(("Ann").toList, ("ann@x.com").toList)] sampleStore (by decide)
      (by decide)⟩

/-- C7: a submission whose rows all fail validation (in particular the empty
submission) is rejected synchronously with the input error and the store is
returned unchanged — no record is created. -/
theorem send_batch_rejects_no_valid_rows (freshBid : Str)
    (freshCid : Nat → Str) (now : Nat)
    (rawRows : List (Option Str × Option Str)) (store : List Record)
    (h : parse_csv rawRows = []) :
    send_batch_endpoint freshBid freshCid now rawRows store =
      (store, Except.error ApiError.noValidRows) := by
  unfold send_batch_endpoint send_batch
  rw [h]
  rfl

/-- Witness for C7: a submission with a whitespace-only name and a missing
email cell parses to no valid rows and is rejected with the store intact. -/
theorem send_batch_rejects_no_valid_rows_witness :
    parse_csv [(some ((" ").toList), some (("ann@x.com").toList)),
        (some (("Bob").toList), none)] = [] ∧
    send_batch_endpoint (("b9").toList) (fun i => natToChars i) 0
        [(some ((" ").toList), some (("ann@x.com").toList)),
          (some (("Bob").toList), none)] sampleStore =
      (sampleStore, Except.error ApiError.noValidRows) :=
  ⟨by decide,
    send_batch_rejects_no_valid_rows (("b9").toList) (fun i => natToChars i) 0
      [(some ((" ").toList), some (("ann@x.com").toList)),
        (some (("Bob").toList), none)] sampleStore (by decide)⟩

/-- Every row surviving `parse_csv` descends from an input row with both
cells present: its name is that cell stripped and non-empty, its email that
cell stripped and lower-cased and containing '@'. -/
lemma parse_csv_row_shape (rawRows : List (Option Str × Option Str)) :
    ∀ p ∈ parse_csv rawRows, ∃ n e, (some n, some e) ∈ rawRows ∧
      p.1 = pyStrip n ∧ p.1 ≠ [] ∧ p.2 = (pyStrip e).map Char.toLower ∧
      p.2.contains '@' = true := by
  intro p hp
  unfold parse_csv at hp
  rw [List.mem_filter] at hp
  obtain ⟨hmem, hpred⟩ := hp
  rw [List.mem_filterMap] at hmem
  obtain ⟨a, ha, hfa⟩ := hmem
  obtain ⟨an, ae⟩ := a
  rw [Bool.and_eq_true] at hpred
  obtain ⟨hlen, hat⟩ := hpred
  cases an with
  | none => simp at hfa
  | some n =>
    cases ae with
    | none => simp at hfa
    | some e =>
      simp only [Option.some.injEq] at hfa
      refine ⟨n, e, ha, ?_, ?_, ?_, hat⟩
      · rw [← hfa]
      · intro hnil
        rw [hnil] at hlen
        simp at hlen
      · rw [← hfa]

/-- C10: every record seeded by the submission endpoint is PENDING and its
name is a stripped, non-empty cell of some input row while its email is a
stripped, lower-cased cell of the same row containing '@'; rows violating the
validation (or with a missing cell) are silently dropped before seeding — the
submission still succeeds and no FAILED record is created for them — so at
most one record per raw row is seeded. -/
theorem seeded_records_normalized (freshBid : Str) (freshCid : Nat → Str)
    (now : Nat) (rawRows : List (Option Str × Option Str))
    (store : List Record) (hsome : parse_csv rawRows ≠ []) :
    (∀ p ∈ parse_csv rawRows, ∃ n e, (some n, some e) ∈ rawRows ∧
      p.1 = pyStrip n ∧ p.1 ≠ [] ∧ p.2 = (pyStrip e).map Char.toLower ∧
      p.2.contains '@' = true) ∧
    (parse_csv rawRows).length ≤ rawRows.length ∧
    (send_batch_endpoint freshBid freshCid now rawRows store).2 =
      Except.ok (freshBid, (parse_csv rawRows).length) ∧
    (∀ d ∈ (send_batch_endpoint freshBid freshCid now rawRows store).1.drop
        store.length,
      d.status = CertificateStatus.pending ∧ d.error_message = none ∧
      ∃ n e, (some n, some e) ∈ rawRows ∧ d.name = pyStrip n ∧ d.name ≠ [] ∧
        d.email = (pyStrip e).map Char.toLower ∧
        d.email.contains '@' = true) := by
  obtain ⟨hresp, hstore⟩ :=
    send_batch_ok_parts freshBid freshCid now (parse_csv rawRows) store hsome
  refine ⟨parse_csv_row_shape rawRows, ?_, hresp, ?_⟩
  · calc (parse_csv rawRows).length
      ≤ (rawRows.filterMap fun p =>
          match p with
          | (some n, some e) =>
            some (pyStrip n, (pyStrip e).map Char.toLower)
          | _ => none).length := List.length_filter_le _ _
    _ ≤ rawRows.length := List.length_filterMap_le _ _
  · unfold send_batch_endpoint
    rw [hstore, List.drop_left]
    intro d hd
    obtain ⟨p, hpmem, hp⟩ := List.mem_map.mp hd
    obtain ⟨i, r⟩ := p
    have hrow : r ∈ parse_csv rawRows := (List.of_mem_zip hpmem).2
    obtain ⟨n, e, hne, h1, h2, h3, h4⟩ := parse_csv_row_shape rawRows r hrow
    rw [← hp]
    exact ⟨rfl, rfl, n, e, hne, h1, h2, h3, h4⟩

/-- Witness for C10: a submission with one valid row (needing stripping and
lower-casing) and one invalid row (no '@') seeds exactly the normalized valid
row. -/
theorem seeded_records_normalized_witness :
    parse_csv [(some (("  Ann  ").toList), some ((" ANN@X.com ").toList)),
        (some (("Bob").toList), some (("bobx.com").toList))] ≠ [] ∧
    ((∀ p ∈ parse_csv [(some (("  Ann  ").toList),
          some ((" ANN@X.com ").toList)),
        (some (("Bob").toList), some (("bobx.com").toList))],
      ∃ n e, (some n, some e) ∈
          [(some (("  Ann  ").toList), some ((" ANN@X.com ").toList)),
            (some (("Bob").toList), some (("bobx.com").toList))] ∧
        p.1 = pyStrip n ∧ p.1 ≠ [] ∧ p.2 = (pyStrip e).map Char.toLower ∧
        p.2.contains '@' = true) ∧
    (parse_csv [(some (("  Ann  ").toList), some ((" ANN@X.com ").toList)),
        (some (("Bob").toList), some (("bobx.com").toList))]).length ≤
      ([(some (("  Ann  ").toList), some ((" ANN@X.com ").toList)),
        (some (("Bob").toList), some (("bobx.com").toList))] :
          List (Option Str × Option Str)).length ∧
    (send_batch_endpoint (("b9").toList) (fun i => natToChars i) 0
        [(some (("  Ann  ").toList), some ((" ANN@X.com ").toList)),
          (some (("Bob").toList), some (("bobx.com").toList))]
        sampleStore).2 =
      Except.ok ((("b9").toList),
        (parse_csv [(some (("  Ann  ").toList),
            some ((" ANN@X.com ").toList)),
          (some (("Bob").toList), some (("bobx.com").toList))]).length) ∧
    (∀ d ∈ (send_batch_endpoint (("b9").toList) (fun i => natToChars i) 0
        [(some (("  Ann  ").toList), some ((" ANN@X.com ").toList)),
          (some (("Bob").toList), some (("bobx.com").toList))]
        sampleStore).1.drop sampleStore.length,
      d.status = CertificateStatus.pending ∧ d.error_message = none ∧
      ∃ n e, (some n, some e) ∈
          [(some (("  Ann  ").toList), some ((" ANN@X.com ").toList)),
            (some (("Bob").toList), some (("bobx.com").toList))] ∧
        d.name = pyStrip n ∧ d.name ≠ [] ∧
        d.email = (pyStrip e).map Char.toLower ∧
        d.email.contains '@' = true)) :=
  ⟨by decide,
    seeded_records_normalized (("b9").toList) (fun i => natToChars i) 0
      [(some (("  Ann  ").toList), some ((" ANN@X.com ").toList)),
        (some (("Bob").toList), some (("bobx.com").toList))] sampleStore
      (by decide)⟩

/-- The outcome write does not change a record's certificate id. -/
lemma procRecord_cid (render deliver : Str → Except Str Unit) (r : Record) :
    (procRecord render deliver r).certificate_id = r.certificate_id := by
  unfold procRecord
  cases recordOutcome render deliver r.certificate_id <;> rfl

/-- The outcome write is idempotent: re-applying it overwrites the same
fields with the same values. -/
lemma procRecord_idem (render deliver : Str → Except Str Unit) (r : Record) :
    procRecord render deliver (procRecord render deliver r) =
      procRecord render deliver r := by
  unfold procRecord
  cases h : recordOutcome render deliver r.certificate_id <;> simp [h]

/-- Folding the per-record update over a list of certificate ids equals a
single map applying the outcome write to every record whose id occurs in the
list. -/
lemma foldl_applyOutcome (render deliver : Str → Except Str Unit)
    (L : List Str) (store : List Record) :
    L.foldl (fun st cid => applyOutcome render deliver cid st) store =
      store.map fun r =>
        if r.certificate_id ∈ L then procRecord render deliver r else r := by
  induction L generalizing store with
  | nil =>
    simp only [List.foldl_nil, List.not_mem_nil, if_false]
    exact (List.map_id' store).symm
  | cons c t ih =>
    rw [List.foldl_cons, ih]
    unfold applyOutcome
    rw [List.map_map]
    apply List.map_congr_left
    intro r _
    simp only [Function.comp_apply]
    by_cases hc : r.certificate_id = c
    · rw [if_pos hc, procRecord_cid]
      by_cases ht : r.certificate_id ∈ t
      · rw [if_pos ht, procRecord_idem, if_pos (by simp [hc, ht])]
      · rw [if_neg ht, if_pos (by simp [hc])]
    · rw [if_neg hc]
      by_cases ht : r.certificate_id ∈ t
      · rw [if_pos ht, if_pos (by simp [ht])]
      · rw [if_neg ht, if_neg (by simp [hc, ht])]

/-- A PENDING record of the batch contributes its certificate id to the
run's snapshot. -/
lemma mem_pendingIds (bid : Str) (store : List Record) (r : Record)
    (hr : r ∈ store) (hb : r.batch_id = bid)
    (hs : r.status = CertificateStatus.pending) :
    r.certificate_id ∈ pendingIds bid store := by
  unfold pendingIds
  exact List.mem_map_of_mem _ (List.mem_filter.mpr ⟨hr, by simp [hb, hs]⟩)

/-- With store-wide unique certificate ids, a record that is not a PENDING
record of the batch does not appear in the run's snapshot. -/
lemma not_mem_pendingIds (bid : Str) (store : List Record) (r : Record)
    (huniq : (store.map Record.certificate_id).Nodup) (hr : r ∈ store)
    (hnp : ¬(r.batch_id = bid ∧ r.status = CertificateStatus.pending)) :
    r.certificate_id ∉ pendingIds bid store := by
  intro hmem
  unfold pendingIds at hmem
  obtain ⟨r2, hr2mem, hcid⟩ := List.mem_map.mp hmem
  obtain ⟨hr2, hpred⟩ := List.mem_filter.mp hr2mem
  simp only [decide_eq_true_eq] at hpred
  have : r2 = r := List.inj_on_of_nodup_map huniq hr2 hr hcid
  rw [this] at hpred
  exact hnp hpred

/-- The final store of a run maps each record through the outcome write when
its id was snapshotted and keeps it unchanged otherwise. -/
lemma process_batch_store (render deliver : Str → Except Str Unit)
    (bid : Str) (store : List Record) :
    (process_batch render deliver bid store).1 =
      store.map fun r =>
        if r.certificate_id ∈ pendingIds bid store then
          procRecord render deliver r
        else r :=
  foldl_applyOutcome render deliver (pendingIds bid store) store

/-- C3: under store-wide certificate-id uniqueness, both core mutating
operations respect the status machine — a dispatcher run and the retry reset
move each record's status only along PENDING→SENT, PENDING→FAILED or
FAILED→PENDING (or leave it alone) — and a SENT record is left entirely
unchanged by both. -/
theorem status_machine_respected (render deliver : Str → Except Str Unit)
    (bid : Str) (store : List Record)
    (huniq : (store.map Record.certificate_id).Nodup) :
    (∀ i (h : i < store.length),
      (∃ r2, (process_batch render deliver bid store).1[i]? = some r2 ∧
        statusStep (store.get ⟨i, h⟩).status r2.status) ∧
      ((store.get ⟨i, h⟩).status = CertificateStatus.sent →
        (process_batch render deliver bid store).1[i]? =
          some (store.get ⟨i, h⟩))) ∧
    (∀ i (h : i < store.length),
      (∃ r2, (retryUpdate bid store)[i]? = some r2 ∧
        statusStep (store.get ⟨i, h⟩).status r2.status) ∧
      ((store.get ⟨i, h⟩).status = CertificateStatus.sent →
        (retryUpdate bid store)[i]? = some (store.get ⟨i, h⟩))) := by
  constructor
  · intro i h
    have hsome : store[i]? = some (store.get ⟨i, h⟩) := by
      rw [List.getElem?_eq_getElem h]
      rfl
    have hmem : store.get ⟨i, h⟩ ∈ store := List.get_mem store i h
    rw [process_batch_store]
    rw [List.getElem?_map, hsome, Option.map_some']
    set r := store.get ⟨i, h⟩ with hr
    by_cases hp : r.certificate_id ∈ pendingIds bid store
    · rw [if_pos hp]
      have hpend : r.batch_id = bid ∧ r.status = CertificateStatus.pending := by
        by_contra hcon
        exact not_mem_pendingIds bid store r huniq hmem hcon hp
      constructor
      · refine ⟨procRecord render deliver r, rfl, ?_⟩
        unfold procRecord
        cases recordOutcome render deliver r.certificate_id with
        | ok fp => exact Or.inr (Or.inl ⟨hpend.2, Or.inl rfl⟩)
        | error e => exact Or.inr (Or.inl ⟨hpend.2, Or.inr rfl⟩)
      · intro hsent
        rw [hpend.2] at hsent
        exact absurd hsent (by simp)
    · rw [if_neg hp]
      exact ⟨⟨r, rfl, Or.inl rfl⟩, fun _ => rfl⟩
  · intro i h
    have hsome : store[i]? = some (store.get ⟨i, h⟩) := by
      rw [List.getElem?_eq_getElem h]
      rfl
    unfold retryUpdate
    rw [List.getElem?_map, hsome, Option.map_some']
    set r := store.get ⟨i, h⟩ with hr
    by_cases hf : r.batch_id = bid ∧ r.status = CertificateStatus.failed
    · rw [if_pos hf]
      refine ⟨⟨_, rfl, Or.inr (Or.inr ⟨hf.2, rfl⟩)⟩, ?_⟩
      intro hsent
      rw [hf.2] at hsent
      exact absurd hsent (by simp)
    · rw [if_neg hf]
      exact ⟨⟨r, rfl, Or.inl rfl⟩, fun _ => rfl⟩

/-- Witness for C3 on the sample store with a deliver oracle that fails on
one certificate. -/
theorem status_machine_respected_witness :
    ((sampleStore.map Record.certificate_id).Nodup) ∧
    ((∀ i (h : i < sampleStore.length),
      (∃ r2, (process_batch (fun _ => Except.ok ())
          (fun cid => if cid = ("c3").toList then
            Except.error (("smtp down").toList) else Except.ok ())
          (("b1").toList) sampleStore).1[i]? = some r2 ∧
        statusStep (sampleStore.get ⟨i, h⟩).status r2.status) ∧
      ((sampleStore.get ⟨i, h⟩).status = CertificateStatus.sent →
        (process_batch (fun _ => Except.ok ())
          (fun cid => if cid = ("c3").toList then
            Except.error (("smtp down").toList) else Except.ok ())
          (("b1").toList) sampleStore).1[i]? =
          some (sampleStore.get ⟨i, h⟩))) ∧
    (∀ i (h : i < sampleStore.length),
      (∃ r2, (retryUpdate (("b1").toList) sampleStore)[i]? = some r2 ∧
        statusStep (sampleStore.get ⟨i, h⟩).status r2.status) ∧
      ((sampleStore.get ⟨i, h⟩).status = CertificateStatus.sent →
        (retryUpdate (("b1").toList) sampleStore)[i]? =
          some (sampleStore.get ⟨i, h⟩)))) :=
  ⟨by decide,
    status_machine_respected (fun _ => Except.ok ())
      (fun cid => if cid = ("c3").toList then
        Except.error (("smtp down").toList) else Except.ok ())
      (("b1").toList) sampleStore (by decide)⟩

/-- C5: in a dispatcher run every snapshotted PENDING record of the batch
receives exactly its own outcome — FAILED carrying the raised error's message
on a render or delivery failure, SENT with the artifact path on success — so
one record's failure never changes another record and never aborts the run
(every snapshotted record is written, all records outside the snapshot are
untouched); the run's trace is the concatenation of the per-record step
traces, and every per-record step ends with the pacing delay followed by the
deletion of that record's transient artifact, whatever the outcome. -/
theorem dispatcher_isolates_and_paces (render deliver : Str → Except Str Unit)
    (bid : Str) (store : List Record)
    (huniq : (store.map Record.certificate_id).Nodup) :
    (process_batch render deliver bid store).1.length = store.length ∧
    (∀ i (h : i < store.length),
      ((store.get ⟨i, h⟩).batch_id = bid →
        (store.get ⟨i, h⟩).status = CertificateStatus.pending →
        (∀ e, recordOutcome render deliver
            (store.get ⟨i, h⟩).certificate_id = Except.error e →
          (process_batch render deliver bid store).1[i]? =
            some (failedRecord (store.get ⟨i, h⟩) e)) ∧
        (∀ fp, recordOutcome render deliver
            (store.get ⟨i, h⟩).certificate_id = Except.ok fp →
          (process_batch render deliver bid store).1[i]? =
            some (sentRecord (store.get ⟨i, h⟩) fp))) ∧
      (¬((store.get ⟨i, h⟩).batch_id = bid ∧
          (store.get ⟨i, h⟩).status = CertificateStatus.pending) →
        (process_batch render deliver bid store).1[i]? =
          some (store.get ⟨i, h⟩))) ∧
    (process_batch render deliver bid store).2 =
      (pendingIds bid store).flatMap (stepEvents render deliver) ∧
    (∀ cid, ∃ pre, stepEvents render deliver cid =
      pre ++ [Event.paced, Event.deletedFile (pdfPath cid)]) := by
  refine ⟨?_, ?_, rfl, ?_⟩
  · rw [process_batch_store]
    exact List.length_map store _
  · intro i h
    have hsome : store[i]? = some (store.get ⟨i, h⟩) := by
      rw [List.getElem?_eq_getElem h]
      rfl
    have hmem : store.get ⟨i, h⟩ ∈ store := List.get_mem store i h
    rw [process_batch_store, List.getElem?_map, hsome, Option.map_some']
    set r := store.get ⟨i, h⟩ with hr
    constructor
    · intro hb hs
      have hp : r.certificate_id ∈ pendingIds bid store :=
        mem_pendingIds bid store r hmem hb hs
      rw [if_pos hp]
      constructor
      · intro e he
        unfold procRecord
        rw [he]
        rfl
      · intro fp hfp
        unfold procRecord
        rw [hfp]
        rfl
    · intro hnp
      rw [if_neg (not_mem_pendingIds bid store r huniq hmem hnp)]
  · intro cid
    exact ⟨_, rfl⟩

/-- Witness for C5 on the sample store, delivery failing for certificate c3:
the PENDING record of the batch is marked FAILED with that message and the
others are untouched. -/
theorem dispatcher_isolates_and_paces_witness :
    ((sampleStore.map Record.certificate_id).Nodup) ∧
    ((process_batch (fun _ => Except.ok ())
        (fun cid => if cid = ("c3").toList then
          Except.error (("smtp down").toList) else Except.ok ())
        (("b1").toList) sampleStore).1.length = sampleStore.length ∧
    (∀ i (h : i < sampleStore.length),
      ((sampleStore.get ⟨i, h⟩).batch_id = ("b1").toList →
        (sampleStore.get ⟨i, h⟩).status = CertificateStatus.pending →
        (∀ e, recordOutcome (fun _ => Except.ok ())
            (fun cid => if cid = ("c3").toList then
              Except.error (("smtp down").toList) else Except.ok ())
            (sampleStore.get ⟨i, h⟩).certificate_id = Except.error e →
          (process_batch (fun _ => Except.ok ())
            (fun cid => if cid = ("c3").toList then
              Except.error (("smtp down").toList) else Except.ok ())
            (("b1").toList) sampleStore).1[i]? =
            some (failedRecord (sampleStore.get ⟨i, h⟩) e)) ∧
        (∀ fp, recordOutcome (fun _ => Except.ok ())
            (fun cid => if cid = ("c3").toList then
              Except.error (("smtp down").toList) else Except.ok ())
            (sampleStore.get ⟨i, h⟩).certificate_id = Except.ok fp →
          (process_batch (fun _ => Except.ok ())
            (fun cid => if cid = ("c3").toList then
              Except.error (("smtp down").toList) else Except.ok ())
            (("b1").toList) sampleStore).1[i]? =
            some (sentRecord (sampleStore.get ⟨i, h⟩) fp))) ∧
      (¬((sampleStore.get ⟨i, h⟩).batch_id = ("b1").toList ∧
          (sampleStore.get ⟨i, h⟩).status = CertificateStatus.pending) →
        (process_batch (fun _ => Except.ok ())
          (fun cid => if cid = ("c3").toList then
            Except.error (("smtp down").toList) else Except.ok ())
          (("b1").toList) sampleStore).1[i]? =
          some (sampleStore.get ⟨i, h⟩))) ∧
    (process_batch (fun _ => Except.ok ())
        (fun cid => if cid = ("c3").toList then
          Except.error (("smtp down").toList) else Except.ok ())
        (("b1").toList) sampleStore).2 =
      (pendingIds (("b1").toList) sampleStore).flatMap
        (stepEvents (fun _ => Except.ok ())
          (fun cid => if cid = ("c3").toList then
            Except.error (("smtp down").toList) else Except.ok ())) ∧
    (∀ cid, ∃ pre, stepEvents (fun _ => Except.ok ())
        (fun cid2 => if cid2 = ("c3").toList then
          Except.error (("smtp down").toList) else Except.ok ()) cid =
      pre ++ [Event.paced, Event.deletedFile (pdfPath cid)])) :=
  ⟨by decide,
    dispatcher_isolates_and_paces (fun _ => Except.ok ())
      (fun cid => if cid = ("c3").toList then
        Except.error (("smtp down").toList) else Except.ok ())
      (("b1").toList) sampleStore (by decide)⟩

end SmartCert
